import Mathlib

/-!
Shallow embedding of the `finnhub_alphavantage` repository: the two HTTP
client wrappers (`src/alphavantage/client.py`, `src/finnhub/client.py`) and
the configuration loader (`src/config.py`). The HTTP transport is modeled as
an environment function mapping (request index, request descriptor) to an
outcome; `print` diagnostics are collected into a list of strings (the
interpolated runtime values inside the diagnostic text are elided).
-/

/-- A JSON value as produced by `response.json()` (Python: dict, list, str,
number, bool, None). JSON numbers are modeled as integers; no claim depends
on fractional values. -/
inductive Json where
  | null
  | bool (b : Bool)
  | num (n : Int)
  | str (s : String)
  | arr (elems : List Json)
  | obj (fields : List (String × Json))
deriving BEq

/-- A Python parameter dictionary (`Dict[str, Any]`), insertion ordered. -/
abbrev PDict : Type := List (String × Json)

/-- Python dict assignment `d[k] = v`: replaces the value of an existing key
in place, otherwise appends the new binding at the end. -/
def dictSet : PDict → String → Json → PDict
  | [], k, v => [(k, v)]
  | kv :: rest, k, v => if kv.1 == k then (k, v) :: rest else kv :: dictSet rest k v

/-- Python `d.get(k)`: the value at `k`, or `None` when absent. -/
def pdictGet : PDict → String → Option Json
  | [], _ => none
  | kv :: rest, k => if kv.1 == k then some kv.2 else pdictGet rest k

/-- Python truthiness of a JSON value (`None`, `False`, `0`, `""`, `[]`,
and the empty dict are falsy). -/
def Json.isTruthy : Json → Bool
  | .null => false
  | .bool b => b
  | .num n => !(n == 0)
  | .str s => !(s == "")
  | .arr elems => !elems.isEmpty
  | .obj fields => !fields.isEmpty

/-- Does `small` start `big`? Helper for Python substring membership. -/
def listStarts : List Char → List Char → Bool
  | [], _ => true
  | _ :: _, [] => false
  | a :: as, b :: bs => a == b && listStarts as bs

/-- Does `needle` occur contiguously inside the second list? Helper for
Python substring membership. -/
def listSub (needle : List Char) : List Char → Bool
  | [] => listStarts needle []
  | c :: rest => listStarts needle (c :: rest) || listSub needle rest

/-- Python membership test `key in data` for a string `key`: key lookup on a
dict, element equality on a list, substring test on a string; raises
`TypeError` (modeled as `.error`) on `None`, numbers, and booleans. -/
def pyContains (data : Json) (key : String) : Except String Bool :=
  match data with
  | .obj fields => .ok (fields.any (fun kv => kv.1 == key))
  | .arr elems => .ok (elems.any (fun e => e == Json.str key))
  | .str s => .ok (listSub key.toList s.toList)
  | .null => .error "argument of type NoneType is not iterable"
  | .bool _ => .error "argument of type bool is not iterable"
  | .num _ => .error "argument of type int is not iterable"

/-- `src/config.py` `Config`: the fields loaded by `load_from_env`. The two
API-key fields model `os.getenv` results (`none` when the variable is
unset). -/
structure Config where
  ALPHA_VANTAGE_API_KEY : Option String
  ALPHA_VANTAGE_BASE_URL : String
  FINNHUB_API_KEY : Option String
  FINNHUB_BASE_URL : String
  REQUEST_TIMEOUT : Nat
  MAX_RETRIES : Nat
deriving DecidableEq

/-- Python truthiness of an `Optional[str]` (`None` and `""` are falsy). -/
def pyStrTruthy : Option String → Bool
  | none => false
  | some s => !(s == "")

/-- `Config.load_from_env` (src/config.py lines 31-46): stores the two key
environment variables as read, fixes both base URLs, and reads
`REQUEST_TIMEOUT` (default 30) and `MAX_RETRIES` (default 3). The numeric
environment variables are modeled already parsed (`int()` of a non-numeric
string would abort the import, outside any claim). -/
def Config.load_from_env (alphaKeyEnv finnhubKeyEnv : Option String)
    (timeoutEnv retriesEnv : Option Nat) : Config :=
  { ALPHA_VANTAGE_API_KEY := alphaKeyEnv
    ALPHA_VANTAGE_BASE_URL := "https://www.alphavantage.co/query"
    FINNHUB_API_KEY := finnhubKeyEnv
    FINNHUB_BASE_URL := "https://finnhub.io/api/v1"
    REQUEST_TIMEOUT := timeoutEnv.getD 30
    MAX_RETRIES := retriesEnv.getD 3 }

/-- `Config.get_alpha_vantage_key` (src/config.py lines 71-82): `None` when
the stored key is falsy, otherwise the key (the printed hint is elided). -/
def Config.get_alpha_vantage_key (cfg : Config) : Option String :=
  if !(pyStrTruthy cfg.ALPHA_VANTAGE_API_KEY) then none
  else cfg.ALPHA_VANTAGE_API_KEY

/-- `Config.get_finnhub_key` (src/config.py lines 84-95). -/
def Config.get_finnhub_key (cfg : Config) : Option String :=
  if !(pyStrTruthy cfg.FINNHUB_API_KEY) then none
  else cfg.FINNHUB_API_KEY

/-- Python `a or b` on `Optional[str]` values: `a` when truthy, else `b`. -/
def pyOrStr (a b : Option String) : Option String :=
  if pyStrTruthy a then a else b

/-- The descriptor of one outbound `session.get` call: URL, query-parameter
dict, session headers, and the timeout passed to the HTTP library. -/
structure GetRequest where
  url : String
  params : Option PDict
  headers : List (String × String)
  timeout : Nat

/-- The transport's outcome for one GET: `failure` models a
`requests.exceptions.RequestException` raised by `session.get` (connection
error, timeout); `response` carries the HTTP status code and the result of
JSON-parsing the body (`none` when `response.json()` raises
`json.JSONDecodeError`). -/
inductive HttpOutcome where
  | failure (msg : String)
  | response (status : Nat) (body : Option Json)

/-- The HTTP environment: the outcome returned for the `n`-th outbound GET
issued by the process (indexed so that re-sends would be observable) as a
function of the request sent. -/
abbrev HttpEnv : Type := Nat → GetRequest → HttpOutcome

/-- `requests.Response.raise_for_status` raises `HTTPError` exactly for
status codes 400-599; 1xx, 2xx and 3xx responses pass through. -/
def raiseForStatus (status : Nat) : Bool :=
  decide (400 ≤ status) && decide (status < 600)

/-- The observable effect of one client call: the returned value, the
diagnostics printed, the caller's params value after the call (Python passes
the dict by reference, so in-place mutation is visible to the caller), the
client object after the call, and the outbound-GET counter after the call. -/
structure CallResult (σ π : Type) where
  result : Option Json
  printed : List String
  paramsAfter : π
  self : σ
  callsAfter : Nat

/-- `AlphaVantageClient` instance state after `__init__`
(src/alphavantage/client.py lines 22-45). -/
structure AlphaVantageClient where
  api_key : String
  base_url : String
  session_headers : List (String × String)
deriving DecidableEq

/-- `AlphaVantageClient.__init__` (src/alphavantage/client.py lines 22-45):
`self.api_key = api_key or config.get_alpha_vantage_key()`; raises
`ValueError` (modeled as `.error`) when the resulting key is falsy;
otherwise stores the key, the configured base URL and the session
User-Agent header. No network access occurs: the constructor does not
consult the HTTP environment. -/
def AlphaVantageClient.init (api_key : Option String) (cfg : Config) :
    Except String AlphaVantageClient :=
  let key := pyOrStr api_key cfg.get_alpha_vantage_key
  if !(pyStrTruthy key) then
    .error "Alpha Vantage API key is required"
  else
    .ok { api_key := key.getD ""
          base_url := cfg.ALPHA_VANTAGE_BASE_URL
          session_headers := [("User-Agent", "AlphaVantage-Python-Client/1.0")] }

/-- The single GET issued by `AlphaVantageClient._make_request` for a given
caller-supplied params dict: the base URL, the params dict after the
`params['apikey'] = self.api_key` insertion, the session headers, and the
configured timeout (src/alphavantage/client.py lines 59-61). -/
def AlphaVantageClient.sentRequest (c : AlphaVantageClient) (cfg : Config)
    (params : PDict) : GetRequest :=
  { url := c.base_url
    params := some (dictSet params "apikey" (Json.str c.api_key))
    headers := c.session_headers
    timeout := cfg.REQUEST_TIMEOUT }

/-- Outcome of the vendor-error inspection in
`AlphaVantageClient._make_request` (src/alphavantage/client.py lines 67-75):
the `if / elif / elif` chain of `in` membership tests on the parsed body.
`typeError` models the `TypeError` a membership test raises on a
non-container body (caught by the `except Exception` handler). -/
inductive AVCheck where
  | errKey (key : String)
  | typeError (msg : String)
  | clean

/-- The `if 'Error Message' in data / elif 'Note' in data / elif
'Information' in data` chain, evaluated left to right with Python `in`
semantics. -/
def avCheck (data : Json) : AVCheck :=
  match pyContains data "Error Message" with
  | .error m => .typeError m
  | .ok true => .errKey "Error Message"
  | .ok false =>
    match pyContains data "Note" with
    | .error m => .typeError m
    | .ok true => .errKey "Note"
    | .ok false =>
      match pyContains data "Information" with
      | .error m => .typeError m
      | .ok true => .errKey "Information"
      | .ok false => .clean

/-- The diagnostic prefix printed for each vendor error key
(src/alphavantage/client.py lines 68, 71, 74); the interpolated vendor
message is elided. -/
def avErrorDiag (key : String) : String :=
  if key == "Error Message" then "API Error"
  else if key == "Note" then "API Note"
  else "API Info"

/-- `AlphaVantageClient._make_request` (src/alphavantage/client.py lines
47-87). Inserts `apikey` into the caller's params dict, issues one GET
(consuming `env n`), raises-and-catches on transport failure, 4xx/5xx
status (`raise_for_status`), JSON decode failure, vendor error keys, or a
`TypeError` from the membership test; every failure returns `none` with a
printed diagnostic. An error-free parsed body is returned unchanged. -/
def AlphaVantageClient.make_request (c : AlphaVantageClient) (cfg : Config)
    (params : PDict) (env : HttpEnv) (n : Nat) :
    CallResult AlphaVantageClient PDict :=
  let params2 := dictSet params "apikey" (Json.str c.api_key)
  match env n (c.sentRequest cfg params) with
  | .failure msg =>
    { result := none, printed := ["Request error: " ++ msg],
      paramsAfter := params2, self := c, callsAfter := n + 1 }
  | .response status body =>
    if raiseForStatus status then
      { result := none,
        printed := ["Request error: HTTPError for status " ++ toString status],
        paramsAfter := params2, self := c, callsAfter := n + 1 }
    else
      match body with
      | none =>
        { result := none, printed := ["JSON decode error"],
          paramsAfter := params2, self := c, callsAfter := n + 1 }
      | some data =>
        match avCheck data with
        | .errKey key =>
          { result := none, printed := [avErrorDiag key],
            paramsAfter := params2, self := c, callsAfter := n + 1 }
        | .typeError msg =>
          { result := none, printed := ["Unexpected error: " ++ msg],
            paramsAfter := params2, self := c, callsAfter := n + 1 }
        | .clean =>
          { result := some data, printed := [],
            paramsAfter := params2, self := c, callsAfter := n + 1 }

/-- `AlphaVantageClient.get_daily_data` (src/alphavantage/client.py lines
120-141): selects the `function` name from `adjusted` and delegates to
`_make_request` with a freshly built params dict. -/
def AlphaVantageClient.get_daily_data (c : AlphaVantageClient) (cfg : Config)
    (symbol : String) (adjusted : Bool) (outputsize : String)
    (env : HttpEnv) (n : Nat) : CallResult AlphaVantageClient PDict :=
  let function := if adjusted then "TIME_SERIES_DAILY_ADJUSTED" else "TIME_SERIES_DAILY"
  c.make_request cfg
    [("function", Json.str function), ("symbol", Json.str symbol),
     ("outputsize", Json.str outputsize)] env n

/-- `AlphaVantageClient.get_quote` (src/alphavantage/client.py lines
183-198). -/
def AlphaVantageClient.get_quote (c : AlphaVantageClient) (cfg : Config)
    (symbol : String) (env : HttpEnv) (n : Nat) :
    CallResult AlphaVantageClient PDict :=
  c.make_request cfg
    [("function", Json.str "GLOBAL_QUOTE"), ("symbol", Json.str symbol)] env n

/-- `FinnhubClient` instance state after `__init__`
(src/finnhub/client.py lines 22-46). -/
structure FinnhubClient where
  api_key : String
  base_url : String
  session_headers : List (String × String)
deriving DecidableEq

/-- `FinnhubClient.__init__` (src/finnhub/client.py lines 22-46): same
shape as the Alpha Vantage constructor, with the API key additionally
installed as the persistent `X-Finnhub-Token` session header. No network
access occurs. -/
def FinnhubClient.init (api_key : Option String) (cfg : Config) :
    Except String FinnhubClient :=
  let key := pyOrStr api_key cfg.get_finnhub_key
  if !(pyStrTruthy key) then
    .error "Finnhub API key is required"
  else
    .ok { api_key := key.getD ""
          base_url := cfg.FINNHUB_BASE_URL
          session_headers :=
            [("X-Finnhub-Token", key.getD ""),
             ("User-Agent", "Finnhub-Python-Client/1.0")] }

/-- The single GET issued by `FinnhubClient._make_request`: the base URL
joined with the endpoint path segment, the optional params dict unchanged,
the session headers, and the configured timeout
(src/finnhub/client.py lines 60-61). -/
def FinnhubClient.sentRequest (c : FinnhubClient) (cfg : Config)
    (endpoint : String) (params : Option PDict) : GetRequest :=
  { url := c.base_url ++ "/" ++ endpoint
    params := params
    headers := c.session_headers
    timeout := cfg.REQUEST_TIMEOUT }

/-- The Finnhub error test `isinstance(data, dict) and data.get('error')`
(src/finnhub/client.py line 67): true exactly when the parsed body is a
dict whose `error` entry is present and truthy. -/
def finnhubIsError (data : Json) : Bool :=
  match data with
  | .obj fields =>
    match pdictGet fields "error" with
    | some v => v.isTruthy
    | none => false
  | _ => false

/-- `FinnhubClient._make_request` (src/finnhub/client.py lines 48-81): one
GET against `base_url/endpoint`; transport failure, 4xx/5xx status and
JSON decode failure return `none` with a diagnostic; a parsed body that is
a dict with a truthy `error` field returns `none`; every other parsed
value (including arrays) is returned unchanged. The params dict is never
mutated. -/
def FinnhubClient.make_request (c : FinnhubClient) (cfg : Config)
    (endpoint : String) (params : Option PDict) (env : HttpEnv) (n : Nat) :
    CallResult FinnhubClient (Option PDict) :=
  match env n (c.sentRequest cfg endpoint params) with
  | .failure msg =>
    { result := none, printed := ["Request error: " ++ msg],
      paramsAfter := params, self := c, callsAfter := n + 1 }
  | .response status body =>
    if raiseForStatus status then
      { result := none,
        printed := ["Request error: HTTPError for status " ++ toString status],
        paramsAfter := params, self := c, callsAfter := n + 1 }
    else
      match body with
      | none =>
        { result := none, printed := ["JSON decode error"],
          paramsAfter := params, self := c, callsAfter := n + 1 }
      | some data =>
        if finnhubIsError data then
          { result := none, printed := ["API Error"],
            paramsAfter := params, self := c, callsAfter := n + 1 }
        else
          { result := some data, printed := [],
            paramsAfter := params, self := c, callsAfter := n + 1 }

/-- `FinnhubClient.get_quote` (src/finnhub/client.py lines 83-94). -/
def FinnhubClient.get_quote (c : FinnhubClient) (cfg : Config)
    (symbol : String) (env : HttpEnv) (n : Nat) :
    CallResult FinnhubClient (Option PDict) :=
  c.make_request cfg "quote" (some [("symbol", Json.str symbol)]) env n

/-- `FinnhubClient.get_market_news` (src/finnhub/client.py lines 130-145). -/
def FinnhubClient.get_market_news (c : FinnhubClient) (cfg : Config)
    (category : String) (min_id : Int) (env : HttpEnv) (n : Nat) :
    CallResult FinnhubClient (Option PDict) :=
  c.make_request cfg "news"
    (some [("category", Json.str category), ("minId", Json.num min_id)]) env n

/-! Sample values used by concrete witnesses and counterexamples. -/

/-- A constructed Alpha Vantage client with key `"K"`. -/
def avSample : AlphaVantageClient :=
  { api_key := "K", base_url := "https://www.alphavantage.co/query",
    session_headers := [("User-Agent", "AlphaVantage-Python-Client/1.0")] }

/-- A constructed Finnhub client with key `"F"`. -/
def fhSample : FinnhubClient :=
  { api_key := "F", base_url := "https://finnhub.io/api/v1",
    session_headers := [("X-Finnhub-Token", "F"),
                        ("User-Agent", "Finnhub-Python-Client/1.0")] }

/-- A configuration with both keys present and default timeout/retries. -/
def cfgSample : Config := Config.load_from_env (some "K") (some "F") none none

/-- An HTTP environment answering every GET with the same outcome. -/
def constEnv (o : HttpOutcome) : HttpEnv := fun _ _ => o

/-! Helper lemmas shared across the claim proofs. -/

/-- Looking up the key just assigned by `dictSet` yields the new value. -/
theorem pdictGet_dictSet (d : PDict) (k : String) (v : Json) :
    pdictGet (dictSet d k v) k = some v := by
  induction d with
  | nil => simp [dictSet, pdictGet]
  | cons kv rest ih =>
    by_cases h : (kv.1 == k) = true
    · simp [dictSet, h, pdictGet]
    · simp [dictSet, h, pdictGet, ih]

/-- Frame facts for `AlphaVantageClient.make_request`: the client object is
unchanged, the caller's dict gains exactly the `apikey` entry, and exactly
one GET is issued, in every branch. -/
theorem av_make_request_frame (c : AlphaVantageClient) (cfg : Config)
    (params : PDict) (env : HttpEnv) (n : Nat) :
    (c.make_request cfg params env n).self = c ∧
    (c.make_request cfg params env n).paramsAfter
      = dictSet params "apikey" (Json.str c.api_key) ∧
    (c.make_request cfg params env n).callsAfter = n + 1 := by
  unfold AlphaVantageClient.make_request
  cases env n (c.sentRequest cfg params) with
  | failure m => exact ⟨rfl, rfl, rfl⟩
  | response s b =>
    dsimp only
    split
    · exact ⟨rfl, rfl, rfl⟩
    · cases b with
      | none => exact ⟨rfl, rfl, rfl⟩
      | some d =>
        dsimp only
        cases avCheck d <;> exact ⟨rfl, rfl, rfl⟩

/-- Frame facts for `FinnhubClient.make_request`. -/
theorem fh_make_request_frame (c : FinnhubClient) (cfg : Config)
    (endpoint : String) (params : Option PDict) (env : HttpEnv) (n : Nat) :
    (c.make_request cfg endpoint params env n).self = c ∧
    (c.make_request cfg endpoint params env n).paramsAfter = params ∧
    (c.make_request cfg endpoint params env n).callsAfter = n + 1 := by
  unfold FinnhubClient.make_request
  cases env n (c.sentRequest cfg endpoint params) with
  | failure m => exact ⟨rfl, rfl, rfl⟩
  | response s b =>
    dsimp only
    split
    · exact ⟨rfl, rfl, rfl⟩
    · cases b with
      | none => exact ⟨rfl, rfl, rfl⟩
      | some d =>
        dsimp only
        by_cases h : finnhubIsError d = true <;> simp [h]

/-- The returned value of an Alpha Vantage call depends only on the
outcome the environment gives to the single request sent. -/
theorem av_make_request_env_congr (c : AlphaVantageClient) (cfg : Config)
    (params : PDict) (env env' : HttpEnv) (n n' : Nat)
    (h : env n (c.sentRequest cfg params) = env' n' (c.sentRequest cfg params)) :
    (c.make_request cfg params env n).result
      = (c.make_request cfg params env' n').result := by
  unfold AlphaVantageClient.make_request
  rw [h]
  cases env' n' (c.sentRequest cfg params) with
  | failure m => rfl
  | response s b =>
    dsimp only
    split
    · rfl
    · cases b with
      | none => rfl
      | some d =>
        dsimp only
        cases avCheck d <;> rfl

/-- The returned value of a Finnhub call depends only on the outcome the
environment gives to the single request sent. -/
theorem fh_make_request_env_congr (c : FinnhubClient) (cfg : Config)
    (endpoint : String) (params : Option PDict) (env env' : HttpEnv) (n n' : Nat)
    (h : env n (c.sentRequest cfg endpoint params)
          = env' n' (c.sentRequest cfg endpoint params)) :
    (c.make_request cfg endpoint params env n).result
      = (c.make_request cfg endpoint params env' n').result := by
  unfold FinnhubClient.make_request
  rw [h]
  cases env' n' (c.sentRequest cfg endpoint params) with
  | failure m => rfl
  | response s b =>
    dsimp only
    split
    · rfl
    · cases b with
      | none => rfl
      | some d =>
        dsimp only
        by_cases h : finnhubIsError d = true <;> simp [h]



/-- `finnhubIsError` holds exactly when the parsed value is an object whose
`error` entry is present and truthy. -/
theorem finnhubIsError_iff (data : Json) :
    finnhubIsError data = true ↔
      ∃ fields, data = Json.obj fields ∧
        ∃ v, pdictGet fields "error" = some v ∧ v.isTruthy = true := by
  cases data with
  | obj fields =>
    simp only [finnhubIsError]
    cases hv : pdictGet fields "error" with
    | none => simp [hv]
    | some v => simp [hv]
  | null => simp [finnhubIsError]
  | bool b => simp [finnhubIsError]
  | num i => simp [finnhubIsError]
  | str s => simp [finnhubIsError]
  | arr elems => simp [finnhubIsError]

/-- A truthy `Optional[str]` holds a non-empty string. -/
theorem pyStrTruthy_getD (o : Option String) (h : pyStrTruthy o = true) :
    o.getD "" ≠ "" := by
  cases o with
  | none => simp [pyStrTruthy] at h
  | some s =>
    simp only [pyStrTruthy, Bool.not_eq_true'] at h
    simpa using h

/-- A successful Alpha Vantage construction stores exactly the selected key,
which was truthy. -/
theorem av_init_ok_key (api_key : Option String) (cfg : Config)
    (c : AlphaVantageClient) (h : AlphaVantageClient.init api_key cfg = .ok c) :
    c.api_key = (pyOrStr api_key cfg.get_alpha_vantage_key).getD "" ∧
    pyStrTruthy (pyOrStr api_key cfg.get_alpha_vantage_key) = true := by
  unfold AlphaVantageClient.init at h
  by_cases ht : pyStrTruthy (pyOrStr api_key cfg.get_alpha_vantage_key) = true
  · rw [if_neg (by simp [ht])] at h
    have hrec := Except.ok.inj h
    exact ⟨by rw [← hrec], ht⟩
  · rw [if_pos (by simp [Bool.not_eq_true] at ht; simp [ht])] at h
    cases h

/-- A successful Finnhub construction stores exactly the selected key,
which was truthy. -/
theorem fh_init_ok_key (api_key : Option String) (cfg : Config)
    (c : FinnhubClient) (h : FinnhubClient.init api_key cfg = .ok c) :
    c.api_key = (pyOrStr api_key cfg.get_finnhub_key).getD "" ∧
    pyStrTruthy (pyOrStr api_key cfg.get_finnhub_key) = true := by
  unfold FinnhubClient.init at h
  by_cases ht : pyStrTruthy (pyOrStr api_key cfg.get_finnhub_key) = true
  · rw [if_neg (by simp [ht])] at h
    have hrec := Except.ok.inj h
    exact ⟨by rw [← hrec], ht⟩
  · rw [if_pos (by simp [Bool.not_eq_true] at ht; simp [ht])] at h
    cases h

/-- Claim C1: for an Alpha Vantage call whose response has a 2xx status and
a body parsing to a JSON object, `_make_request` returns the absence
sentinel exactly when the top-level object contains one of the keys
`Error Message`, `Note`, `Information`, and otherwise returns the parsed
object unchanged, with no field added, removed, or rewritten. -/
theorem claim_C1_av_error_keys (c : AlphaVantageClient) (cfg : Config)
    (params : PDict) (env : HttpEnv) (n status : Nat)
    (fields : List (String × Json))
    (hlo : 200 ≤ status) (hhi : status < 300)
    (hresp : env n (c.sentRequest cfg params)
      = HttpOutcome.response status (some (Json.obj fields))) :
    ((c.make_request cfg params env n).result = none ↔
      (fields.any (fun kv => kv.1 == "Error Message") ||
       fields.any (fun kv => kv.1 == "Note") ||
       fields.any (fun kv => kv.1 == "Information")) = true) ∧
    ((fields.any (fun kv => kv.1 == "Error Message") ||
      fields.any (fun kv => kv.1 == "Note") ||
      fields.any (fun kv => kv.1 == "Information")) = false →
      (c.make_request cfg params env n).result = some (Json.obj fields)) := by
  have hrfs : raiseForStatus status = false := by
    simp only [raiseForStatus, Bool.and_eq_false_iff, decide_eq_false_iff_not]
    omega
  cases hEM : fields.any (fun kv => kv.1 == "Error Message") <;>
  cases hNo : fields.any (fun kv => kv.1 == "Note") <;>
  cases hIn : fields.any (fun kv => kv.1 == "Information") <;>
    simp [AlphaVantageClient.make_request, hresp, hrfs, avCheck, pyContains,
      hEM, hNo, hIn]

/-- Concrete instance of C1: a 200 response whose object body carries an
`Error Message` key yields the absence sentinel. -/
theorem claim_C1_av_error_keys_witness :
    200 ≤ 200 ∧ 200 < 300 ∧
    (avSample.make_request cfgSample []
      (constEnv (HttpOutcome.response 200
        (some (Json.obj [("Error Message", Json.str "x")])))) 0).result = none := by
  refine ⟨le_refl 200, by omega, ?_⟩
  exact (claim_C1_av_error_keys avSample cfgSample []
    (constEnv (HttpOutcome.response 200
      (some (Json.obj [("Error Message", Json.str "x")])))) 0 200
    [("Error Message", Json.str "x")] (le_refl 200) (by omega) rfl).1.mpr
    (by decide)

/-- Claim C2: for a Finnhub call whose response has a 2xx status and a body
that parses as JSON, `_make_request` returns the absence sentinel if and
only if the parsed value is an object whose `error` field is present and
truthy; every other parsed value, including JSON arrays, is returned
unchanged. -/
theorem claim_C2_fh_error_field (c : FinnhubClient) (cfg : Config)
    (endpoint : String) (params : Option PDict) (env : HttpEnv)
    (n status : Nat) (data : Json)
    (hlo : 200 ≤ status) (hhi : status < 300)
    (hresp : env n (c.sentRequest cfg endpoint params)
      = HttpOutcome.response status (some data)) :
    ((c.make_request cfg endpoint params env n).result = none ↔
      ∃ fields, data = Json.obj fields ∧
        ∃ v, pdictGet fields "error" = some v ∧ v.isTruthy = true) ∧
    ((¬ ∃ fields, data = Json.obj fields ∧
        ∃ v, pdictGet fields "error" = some v ∧ v.isTruthy = true) →
      (c.make_request cfg endpoint params env n).result = some data) := by
  have hrfs : raiseForStatus status = false := by
    simp only [raiseForStatus, Bool.and_eq_false_iff, decide_eq_false_iff_not]
    omega
  have hmain : (c.make_request cfg endpoint params env n).result
      = if finnhubIsError data then none else some data := by
    by_cases hfe : finnhubIsError data = true <;>
      simp [FinnhubClient.make_request, hresp, hrfs, hfe]
  rw [hmain]
  constructor
  · by_cases hfe : finnhubIsError data = true
    · simp only [hfe, if_true, eq_self_iff_true, true_iff]
      exact (finnhubIsError_iff data).mp hfe
    · simp only [hfe, if_false]
      constructor
      · intro h
        cases h
      · intro h
        exact absurd ((finnhubIsError_iff data).mpr h) hfe
  · intro hne
    by_cases hfe : finnhubIsError data = true
    · exact absurd ((finnhubIsError_iff data).mp hfe) hne
    · simp [hfe]

/-- Concrete instance of C2: the canned body `{"error": "rate limit"}`
yields the absence sentinel. -/
theorem claim_C2_fh_error_field_witness :
    200 ≤ 200 ∧ 200 < 300 ∧
    (fhSample.make_request cfgSample "quote" none
      (constEnv (HttpOutcome.response 200
        (some (Json.obj [("error", Json.str "rate limit")])))) 0).result = none := by
  refine ⟨le_refl 200, by omega, ?_⟩
  exact (claim_C2_fh_error_field fhSample cfgSample "quote" none
    (constEnv (HttpOutcome.response 200
      (some (Json.obj [("error", Json.str "rate limit")])))) 0 200
    (Json.obj [("error", Json.str "rate limit")]) (le_refl 200) (by omega)
    rfl).1.mpr
    ⟨[("error", Json.str "rate limit")], rfl, Json.str "rate limit", rfl, by decide⟩

/-- Claim C3: either client's constructor fails (the modeled `ValueError`)
exactly when neither the argument nor the configured environment key is a
non-empty string, and every successfully constructed client holds a
non-empty credential. The constructors take no HTTP environment, so no
network request can precede the check. -/
theorem claim_C3_constructor_requires_key (api_key : Option String) (cfg : Config) :
    ((AlphaVantageClient.init api_key cfg).isOk = false ↔
      pyStrTruthy api_key = false ∧ pyStrTruthy cfg.ALPHA_VANTAGE_API_KEY = false) ∧
    (∀ c, AlphaVantageClient.init api_key cfg = .ok c → c.api_key ≠ "") ∧
    ((FinnhubClient.init api_key cfg).isOk = false ↔
      pyStrTruthy api_key = false ∧ pyStrTruthy cfg.FINNHUB_API_KEY = false) ∧
    (∀ c, FinnhubClient.init api_key cfg = .ok c → c.api_key ≠ "") := by
  have hnone : pyStrTruthy none = false := rfl
  refine ⟨?_, ?_, ?_, ?_⟩
  · cases hA : pyStrTruthy api_key <;>
      cases hC : pyStrTruthy cfg.ALPHA_VANTAGE_API_KEY <;>
      simp [AlphaVantageClient.init, pyOrStr, Config.get_alpha_vantage_key,
        hA, hC, hnone, Except.isOk, Except.toBool]
  · intro c hc
    obtain ⟨hk, ht⟩ := av_init_ok_key api_key cfg c hc
    rw [hk]
    exact pyStrTruthy_getD _ ht
  · cases hA : pyStrTruthy api_key <;>
      cases hC : pyStrTruthy cfg.FINNHUB_API_KEY <;>
      simp [FinnhubClient.init, pyOrStr, Config.get_finnhub_key,
        hA, hC, hnone, Except.isOk, Except.toBool]
  · intro c hc
    obtain ⟨hk, ht⟩ := fh_init_ok_key api_key cfg c hc
    rw [hk]
    exact pyStrTruthy_getD _ ht

/-- Concrete instance of C3: with an empty configuration and no argument,
both constructors fail. -/
theorem claim_C3_constructor_requires_key_witness :
    (AlphaVantageClient.init none (Config.load_from_env none none none none)).isOk = false ∧
    (FinnhubClient.init none (Config.load_from_env none none none none)).isOk = false := by
  constructor
  · exact (claim_C3_constructor_requires_key none
      (Config.load_from_env none none none none)).1.mpr ⟨rfl, rfl⟩
  · exact (claim_C3_constructor_requires_key none
      (Config.load_from_env none none none none)).2.2.1.mpr ⟨rfl, rfl⟩

/-- Counterexample to C4 as stated: a response with status 300 (non-2xx)
and a parseable error-free JSON object body is returned to the caller, not
mapped to the absence sentinel — `raise_for_status` raises only for
4xx/5xx, and statuses such as 300 pass straight through to body parsing. -/
theorem claim_C4_counterexample :
    (avSample.make_request cfgSample []
      (constEnv (HttpOutcome.response 300 (some (Json.obj [("a", Json.num 1)])))) 0).result
      = some (Json.obj [("a", Json.num 1)]) ∧
    ¬ (200 ≤ 300 ∧ 300 < 300) := by
  constructor
  · rfl
  · omega

/-- Claim C4 (amended): for either client, a transport failure, an HTTP
status in the 4xx/5xx range (exactly those `raise_for_status` raises for),
or a body that fails JSON parsing makes `_make_request` return the absence
sentinel with a printed diagnostic. Every branch of the embedded routine
yields a value, mirroring the `except` handlers that stop any request-path
exception from propagating. -/
theorem claim_C4_failure_modes_sentinel
    (c : AlphaVantageClient) (fc : FinnhubClient) (cfg : Config)
    (params : PDict) (endpoint : String) (fparams : Option PDict)
    (env fenv : HttpEnv) (n m : Nat) :
    (∀ msg, env n (c.sentRequest cfg params) = HttpOutcome.failure msg →
      (c.make_request cfg params env n).result = none ∧
      (c.make_request cfg params env n).printed ≠ []) ∧
    (∀ status body, env n (c.sentRequest cfg params) = HttpOutcome.response status body →
      400 ≤ status → status < 600 →
      (c.make_request cfg params env n).result = none ∧
      (c.make_request cfg params env n).printed ≠ []) ∧
    (∀ status, env n (c.sentRequest cfg params) = HttpOutcome.response status none →
      (c.make_request cfg params env n).result = none ∧
      (c.make_request cfg params env n).printed ≠ []) ∧
    (∀ msg, fenv m (fc.sentRequest cfg endpoint fparams) = HttpOutcome.failure msg →
      (fc.make_request cfg endpoint fparams fenv m).result = none ∧
      (fc.make_request cfg endpoint fparams fenv m).printed ≠ []) ∧
    (∀ status body,
      fenv m (fc.sentRequest cfg endpoint fparams) = HttpOutcome.response status body →
      400 ≤ status → status < 600 →
      (fc.make_request cfg endpoint fparams fenv m).result = none ∧
      (fc.make_request cfg endpoint fparams fenv m).printed ≠ []) ∧
    (∀ status, fenv m (fc.sentRequest cfg endpoint fparams) = HttpOutcome.response status none →
      (fc.make_request cfg endpoint fparams fenv m).result = none ∧
      (fc.make_request cfg endpoint fparams fenv m).printed ≠ []) := by
  refine ⟨?_, ?_, ?_, ?_, ?_, ?_⟩
  · intro msg h
    simp [AlphaVantageClient.make_request, h]
  · intro status body h h4 h6
    have hr : raiseForStatus status = true := by
      simp only [raiseForStatus, Bool.and_eq_true, decide_eq_true_eq]
      omega
    simp [AlphaVantageClient.make_request, h, hr]
  · intro status h
    by_cases hr : raiseForStatus status = true <;>
      simp [AlphaVantageClient.make_request, h, hr]
  · intro msg h
    simp [FinnhubClient.make_request, h]
  · intro status body h h4 h6
    have hr : raiseForStatus status = true := by
      simp only [raiseForStatus, Bool.and_eq_true, decide_eq_true_eq]
      omega
    simp [FinnhubClient.make_request, h, hr]
  · intro status h
    by_cases hr : raiseForStatus status = true <;>
      simp [FinnhubClient.make_request, h, hr]

/-- Concrete instance of amended C4: a simulated timeout makes both
clients return the absence sentinel. -/
theorem claim_C4_failure_modes_sentinel_witness :
    (avSample.make_request cfgSample []
      (constEnv (HttpOutcome.failure "timeout")) 0).result = none ∧
    (fhSample.make_request cfgSample "quote" none
      (constEnv (HttpOutcome.failure "timeout")) 0).result = none := by
  constructor
  · exact ((claim_C4_failure_modes_sentinel avSample fhSample cfgSample []
      "quote" none (constEnv (HttpOutcome.failure "timeout"))
      (constEnv (HttpOutcome.failure "timeout")) 0 0).1 "timeout" rfl).1
  · exact ((claim_C4_failure_modes_sentinel avSample fhSample cfgSample []
      "quote" none (constEnv (HttpOutcome.failure "timeout"))
      (constEnv (HttpOutcome.failure "timeout")) 0 0).2.2.2.1 "timeout" rfl).1

/-- Claim C5: `get_daily_data("TSLA", adjusted=True, outputsize="compact")`
issues one GET whose parameter dict is exactly
`function=TIME_SERIES_DAILY_ADJUSTED, symbol=TSLA, outputsize=compact,
apikey=<key>`; with `adjusted=False` the call delegates with
`TIME_SERIES_DAILY` instead; and an error-free JSON object body is
returned to the caller unchanged. -/
theorem claim_C5_get_daily_data (c : AlphaVantageClient) (cfg : Config)
    (env : HttpEnv) (n status : Nat) (fields : List (String × Json))
    (hlo : 200 ≤ status) (hhi : status < 300)
    (hclean : (fields.any (fun kv => kv.1 == "Error Message") ||
      fields.any (fun kv => kv.1 == "Note") ||
      fields.any (fun kv => kv.1 == "Information")) = false)
    (hresp : env n (c.sentRequest cfg
        [("function", Json.str "TIME_SERIES_DAILY_ADJUSTED"),
         ("symbol", Json.str "TSLA"), ("outputsize", Json.str "compact")])
      = HttpOutcome.response status (some (Json.obj fields))) :
    (c.get_daily_data cfg "TSLA" true "compact" env n).result
      = some (Json.obj fields) ∧
    (c.sentRequest cfg
        [("function", Json.str "TIME_SERIES_DAILY_ADJUSTED"),
         ("symbol", Json.str "TSLA"), ("outputsize", Json.str "compact")]).params
      = some [("function", Json.str "TIME_SERIES_DAILY_ADJUSTED"),
              ("symbol", Json.str "TSLA"), ("outputsize", Json.str "compact"),
              ("apikey", Json.str c.api_key)] ∧
    (c.get_daily_data cfg "TSLA" true "compact" env n).callsAfter = n + 1 ∧
    (∀ sym outs env' n', c.get_daily_data cfg sym false outs env' n'
      = c.make_request cfg
          [("function", Json.str "TIME_SERIES_DAILY"), ("symbol", Json.str sym),
           ("outputsize", Json.str outs)] env' n') := by
  have hrfs : raiseForStatus status = false := by
    simp only [raiseForStatus, Bool.and_eq_false_iff, decide_eq_false_iff_not]
    omega
  simp only [Bool.or_eq_false_iff] at hclean
  obtain ⟨⟨hEM, hNo⟩, hIn⟩ := hclean
  refine ⟨?_, rfl, ?_, ?_⟩
  · simp [AlphaVantageClient.get_daily_data, AlphaVantageClient.make_request,
      hresp, hrfs, avCheck, pyContains, hEM, hNo, hIn]
  · exact (av_make_request_frame c cfg
      [("function", Json.str "TIME_SERIES_DAILY_ADJUSTED"),
       ("symbol", Json.str "TSLA"), ("outputsize", Json.str "compact")] env n).2.2
  · intro sym outs env' n'
    rfl

/-- Concrete instance of C5: a clean daily-series body comes back whole. -/
theorem claim_C5_get_daily_data_witness :
    (avSample.get_daily_data cfgSample "TSLA" true "compact"
      (constEnv (HttpOutcome.response 200
        (some (Json.obj [("Time Series (Daily)", Json.obj [])])))) 0).result
      = some (Json.obj [("Time Series (Daily)", Json.obj [])]) := by
  exact (claim_C5_get_daily_data avSample cfgSample
    (constEnv (HttpOutcome.response 200
      (some (Json.obj [("Time Series (Daily)", Json.obj [])])))) 0 200
    [("Time Series (Daily)", Json.obj [])] (le_refl 200) (by omega)
    (by decide) rfl).1

/-- Claim C6: against an unchanged backend (an environment whose answers do
not depend on the request index), repeating the same call yields
structurally identical results, and no call changes the client object
(api_key, base_url, session headers) or, for Finnhub, the params value. -/
theorem claim_C6_idempotent_no_mutation
    (c : AlphaVantageClient) (fc : FinnhubClient) (cfg : Config)
    (params : PDict) (endpoint : String) (fparams : Option PDict)
    (sym fsym : String) (env : HttpEnv) (n n' : Nat)
    (henv : ∀ i j r, env i r = env j r) :
    ((c.make_request cfg params env n).result
        = (c.make_request cfg params env n').result ∧
      (c.make_request cfg params env n).self = c ∧
      (c.make_request cfg params env n).paramsAfter
        = (c.make_request cfg params env n').paramsAfter) ∧
    ((fc.make_request cfg endpoint fparams env n).result
        = (fc.make_request cfg endpoint fparams env n').result ∧
      (fc.make_request cfg endpoint fparams env n).self = fc ∧
      (fc.make_request cfg endpoint fparams env n).paramsAfter = fparams) ∧
    ((c.get_quote cfg sym env n).result = (c.get_quote cfg sym env n').result ∧
      (c.get_quote cfg sym env n).self = c) ∧
    ((fc.get_quote cfg fsym env n).result = (fc.get_quote cfg fsym env n').result ∧
      (fc.get_quote cfg fsym env n).self = fc) := by
  refine ⟨⟨?_, ?_, ?_⟩, ⟨?_, ?_, ?_⟩, ⟨?_, ?_⟩, ⟨?_, ?_⟩⟩
  · exact av_make_request_env_congr c cfg params env env n n' (henv n n' _)
  · exact (av_make_request_frame c cfg params env n).1
  · rw [(av_make_request_frame c cfg params env n).2.1,
      (av_make_request_frame c cfg params env n').2.1]
  · exact fh_make_request_env_congr fc cfg endpoint fparams env env n n' (henv n n' _)
  · exact (fh_make_request_frame fc cfg endpoint fparams env n).1
  · exact (fh_make_request_frame fc cfg endpoint fparams env n).2.1
  · exact av_make_request_env_congr c cfg
      [("function", Json.str "GLOBAL_QUOTE"), ("symbol", Json.str sym)]
      env env n n' (henv n n' _)
  · exact (av_make_request_frame c cfg
      [("function", Json.str "GLOBAL_QUOTE"), ("symbol", Json.str sym)] env n).1
  · exact fh_make_request_env_congr fc cfg "quote" (some [("symbol", Json.str fsym)])
      env env n n' (henv n n' _)
  · exact (fh_make_request_frame fc cfg "quote" (some [("symbol", Json.str fsym)]) env n).1

/-- Concrete instance of C6: the same quote call twice against a constant
backend gives identical results and leaves the client unchanged. -/
theorem claim_C6_idempotent_no_mutation_witness :
    (avSample.get_quote cfgSample "AAPL"
        (constEnv (HttpOutcome.response 200 (some (Json.obj [])))) 0).result
      = (avSample.get_quote cfgSample "AAPL"
        (constEnv (HttpOutcome.response 200 (some (Json.obj [])))) 1).result ∧
    (avSample.get_quote cfgSample "AAPL"
        (constEnv (HttpOutcome.response 200 (some (Json.obj [])))) 0).self = avSample := by
  exact (claim_C6_idempotent_no_mutation avSample fhSample cfgSample [] "quote"
    none "AAPL" "AAPL" (constEnv (HttpOutcome.response 200 (some (Json.obj [])))) 0 1
    (fun _ _ _ => rfl)).2.2.1

/-- Claim C7: every call issues exactly one outbound GET (the request
counter advances by exactly one, hence at most one GET per invocation), the
returned value depends only on the outcome of that single request (no
re-send after a failure), and no request path consults `MAX_RETRIES`:
changing that configuration field changes nothing about the call. -/
theorem claim_C7_single_get_no_retries
    (c : AlphaVantageClient) (fc : FinnhubClient) (cfg : Config)
    (params : PDict) (endpoint : String) (fparams : Option PDict)
    (env env' : HttpEnv) (n r r' : Nat) :
    (c.make_request cfg params env n).callsAfter = n + 1 ∧
    (fc.make_request cfg endpoint fparams env n).callsAfter = n + 1 ∧
    (c.make_request { cfg with MAX_RETRIES := r } params env n
      = c.make_request { cfg with MAX_RETRIES := r' } params env n) ∧
    (fc.make_request { cfg with MAX_RETRIES := r } endpoint fparams env n
      = fc.make_request { cfg with MAX_RETRIES := r' } endpoint fparams env n) ∧
    (env n (c.sentRequest cfg params) = env' n (c.sentRequest cfg params) →
      (c.make_request cfg params env n).result
        = (c.make_request cfg params env' n).result) ∧
    (env n (fc.sentRequest cfg endpoint fparams)
        = env' n (fc.sentRequest cfg endpoint fparams) →
      (fc.make_request cfg endpoint fparams env n).result
        = (fc.make_request cfg endpoint fparams env' n).result) := by
  refine ⟨(av_make_request_frame c cfg params env n).2.2,
    (fh_make_request_frame fc cfg endpoint fparams env n).2.2, rfl, rfl, ?_, ?_⟩
  · exact fun h => av_make_request_env_congr c cfg params env env' n n h
  · exact fun h => fh_make_request_env_congr fc cfg endpoint fparams env env' n n h

/-- Concrete instance of C7: one GET is issued and the retry setting is
inert. -/
theorem claim_C7_single_get_no_retries_witness :
    (avSample.make_request cfgSample [] (constEnv (HttpOutcome.failure "x")) 0).callsAfter = 1 ∧
    (avSample.make_request { cfgSample with MAX_RETRIES := 0 } []
        (constEnv (HttpOutcome.failure "x")) 0
      = avSample.make_request { cfgSample with MAX_RETRIES := 99 } []
        (constEnv (HttpOutcome.failure "x")) 0) := by
  refine ⟨?_, ?_⟩
  · exact (claim_C7_single_get_no_retries avSample fhSample cfgSample [] "quote"
      none (constEnv (HttpOutcome.failure "x")) (constEnv (HttpOutcome.failure "x"))
      0 0 99).1
  · exact (claim_C7_single_get_no_retries avSample fhSample cfgSample [] "quote"
      none (constEnv (HttpOutcome.failure "x")) (constEnv (HttpOutcome.failure "x"))
      0 0 99).2.2.1

/-- Claim C8: `AlphaVantageClient._make_request` mutates the caller's params
dict in place: after every call — the insertion precedes the GET, so failed
calls included — the dict holds the `apikey` entry, and the GET itself was
issued with that same mutated dict. -/
theorem claim_C8_params_gain_apikey (c : AlphaVantageClient) (cfg : Config)
    (params : PDict) (env : HttpEnv) (n : Nat) :
    (c.make_request cfg params env n).paramsAfter
      = dictSet params "apikey" (Json.str c.api_key) ∧
    pdictGet (c.make_request cfg params env n).paramsAfter "apikey"
      = some (Json.str c.api_key) ∧
    (c.sentRequest cfg params).params
      = some (c.make_request cfg params env n).paramsAfter := by
  have hp := (av_make_request_frame c cfg params env n).2.1
  refine ⟨hp, ?_, ?_⟩
  · rw [hp]
    exact pdictGet_dictSet params "apikey" (Json.str c.api_key)
  · rw [hp]
    rfl

/-- Claim C9: constructing either client with `api_key=""` ignores the
empty string without raising so long as the configured key is truthy:
construction fails exactly when the configured key is also absent or
empty, and on success the stored key is the configured key. -/
theorem claim_C9_empty_string_falls_back (cfg : Config) :
    (AlphaVantageClient.init (some "") cfg = AlphaVantageClient.init none cfg) ∧
    ((AlphaVantageClient.init (some "") cfg).isOk = false ↔
      pyStrTruthy cfg.ALPHA_VANTAGE_API_KEY = false) ∧
    (∀ c, AlphaVantageClient.init (some "") cfg = .ok c →
      some c.api_key = cfg.ALPHA_VANTAGE_API_KEY) ∧
    (FinnhubClient.init (some "") cfg = FinnhubClient.init none cfg) ∧
    ((FinnhubClient.init (some "") cfg).isOk = false ↔
      pyStrTruthy cfg.FINNHUB_API_KEY = false) ∧
    (∀ c, FinnhubClient.init (some "") cfg = .ok c →
      some c.api_key = cfg.FINNHUB_API_KEY) := by
  have hempty : pyStrTruthy (some "") = false := rfl
  have hnone : pyStrTruthy none = false := rfl
  refine ⟨rfl, ?_, ?_, rfl, ?_, ?_⟩
  · cases hC : pyStrTruthy cfg.ALPHA_VANTAGE_API_KEY <;>
      simp [AlphaVantageClient.init, pyOrStr, Config.get_alpha_vantage_key,
        hC, hempty, hnone, Except.isOk, Except.toBool]
  · intro c hc
    obtain ⟨hk, ht⟩ := av_init_ok_key (some "") cfg c hc
    rw [show pyOrStr (some "") cfg.get_alpha_vantage_key
        = cfg.get_alpha_vantage_key from rfl] at hk ht
    unfold Config.get_alpha_vantage_key at hk ht
    cases hck : cfg.ALPHA_VANTAGE_API_KEY with
    | none =>
      rw [hck] at ht
      simp [pyStrTruthy] at ht
    | some s =>
      rw [hck] at hk ht
      by_cases hs : (s == "") = true
      · simp [pyStrTruthy, hs] at ht
      · simp only [pyStrTruthy, hs, Bool.not_false, if_neg, Bool.not_eq_true] at hk
        simp [hk]
  · cases hC : pyStrTruthy cfg.FINNHUB_API_KEY <;>
      simp [FinnhubClient.init, pyOrStr, Config.get_finnhub_key,
        hC, hempty, hnone, Except.isOk, Except.toBool]
  · intro c hc
    obtain ⟨hk, ht⟩ := fh_init_ok_key (some "") cfg c hc
    rw [show pyOrStr (some "") cfg.get_finnhub_key
        = cfg.get_finnhub_key from rfl] at hk ht
    unfold Config.get_finnhub_key at hk ht
    cases hck : cfg.FINNHUB_API_KEY with
    | none =>
      rw [hck] at ht
      simp [pyStrTruthy] at ht
    | some s =>
      rw [hck] at hk ht
      by_cases hs : (s == "") = true
      · simp [pyStrTruthy, hs] at ht
      · simp only [pyStrTruthy, hs, Bool.not_false, if_neg, Bool.not_eq_true] at hk
        simp [hk]

/-- Concrete instance of C9: with a configured key present, passing `""`
succeeds and equals passing nothing; the stored key is the configured one. -/
theorem claim_C9_empty_string_falls_back_witness :
    (AlphaVantageClient.init (some "") cfgSample
      = AlphaVantageClient.init none cfgSample) ∧
    (∀ c, AlphaVantageClient.init (some "") cfgSample = .ok c →
      some c.api_key = cfgSample.ALPHA_VANTAGE_API_KEY) := by
  exact ⟨(claim_C9_empty_string_falls_back cfgSample).1,
    (claim_C9_empty_string_falls_back cfgSample).2.2.1⟩

/-- Claim C10: a 2xx Alpha Vantage response whose body parses to a JSON
value that does not support string membership (`null`, a number, a
boolean) yields the absence sentinel — the membership test raises
`TypeError`, which the catch-all handler converts to `None` — rather than
the parsed value. -/
theorem claim_C10_av_noncontainer_body (c : AlphaVantageClient) (cfg : Config)
    (params : PDict) (env : HttpEnv) (n status : Nat) (data : Json)
    (hlo : 200 ≤ status) (hhi : status < 300)
    (hshape : data = Json.null ∨ (∃ i, data = Json.num i) ∨ ∃ b, data = Json.bool b)
    (hresp : env n (c.sentRequest cfg params)
      = HttpOutcome.response status (some data)) :
    (c.make_request cfg params env n).result = none := by
  have hrfs : raiseForStatus status = false := by
    simp only [raiseForStatus, Bool.and_eq_false_iff, decide_eq_false_iff_not]
    omega
  rcases hshape with h | ⟨i, h⟩ | ⟨b, h⟩ <;> subst h <;>
    simp [AlphaVantageClient.make_request, hresp, hrfs, avCheck, pyContains]

/-- Concrete instance of C10: a 200 response whose body is JSON `null`
yields the absence sentinel. -/
theorem claim_C10_av_noncontainer_body_witness :
    (avSample.make_request cfgSample []
      (constEnv (HttpOutcome.response 200 (some Json.null))) 0).result = none := by
  exact claim_C10_av_noncontainer_body avSample cfgSample []
    (constEnv (HttpOutcome.response 200 (some Json.null))) 0 200 Json.null
    (le_refl 200) (by omega) (Or.inl rfl) rfl
